import Mathlib

/-!
Verification of the pokemon-data pipeline core.

The data shapes are taken from the TypeScript declarations in
`src/frontend/src/types/api.ts` (StreamProcessorStatus, AlertSystemStatus,
StreamEvent, Anomaly, Alert, DataQuality, Pokemon).  The behaviour of the
pipeline core (stream processor, anomaly rule engine, alert system,
dashboard aggregator) lives in the Python services that are not part of
this checkout, so those operations are modelled from the specification.
Timestamps are modelled as natural numbers.
-/

namespace PokemonPipeline

/-- Severity of an anomaly finding, from the `Anomaly` declaration:
`severity : 'low' | 'medium' | 'high'`. -/
inductive Severity where
  | low
  | medium
  | high
deriving DecidableEq, Repr

/-- Level of an alert, from the `Alert` declaration:
`level : 'info' | 'warning' | 'critical'`. -/
inductive AlertLevel where
  | info
  | warning
  | critical
deriving DecidableEq, Repr

/-- The fixed-shape six-dimensional stat vector, from `PokemonStats`. -/
structure PokemonStats where
  hp : Int
  attack : Int
  defense : Int
  special_attack : Int
  special_defense : Int
  speed : Int
deriving DecidableEq, Repr

/-- The two image-reference fields of a record.  Modelled from the spec:
the record carries "two image-reference fields", and a missing/absent
field is itself evaluable input, so each is an `Option String`. -/
structure PokemonSprites where
  front_default : Option String
  front_shiny : Option String
deriving DecidableEq, Repr

/-- A record, from the `Pokemon` declaration restricted to the fields the
core inspects: numeric id, unique name, category tags (the names of the
`types` entries), the stat vector and the image references. -/
structure Pokemon where
  id : Int
  name : String
  types : List String
  stats : PokemonStats
  sprites : PokemonSprites
deriving DecidableEq, Repr

/-- An anomaly finding, from the `Anomaly` declaration.  The opaque
`details` payload is modelled as a string. -/
structure Anomaly where
  rule : String
  severity : Severity
  description : String
  details : String
deriving DecidableEq, Repr

/-- A stream event, from the `StreamEvent` declaration. -/
structure StreamEvent where
  timestamp : Nat
  pokemon_id : Int
  pokemon_name : String
  anomalies_count : Nat
  anomalies : List Anomaly
deriving DecidableEq, Repr

/-- An alert, from the `Alert` declaration. -/
structure Alert where
  timestamp : Nat
  level : AlertLevel
  title : String
  message : String
  details : Option String
deriving DecidableEq, Repr

/-- Processor status, from the `StreamProcessorStatus` declaration. -/
structure StreamProcessorStatus where
  is_running : Bool
  processed_count : Nat
  anomalies_detected : Nat
  alerts_sent : Nat
  last_processed : Option Nat
  start_time : Option Nat
deriving DecidableEq, Repr

/-- Alert metrics, from the `AlertSystemStatus` declaration. -/
structure AlertSystemStatus where
  total_alerts : Nat
  last_alert : Option Nat
deriving DecidableEq, Repr

/-- An anomaly rule.  Modelled from the spec: "rules are data (id,
severity, predicate, description template)". -/
structure AnomalyRule where
  id : String
  severity : Severity
  predicate : Pokemon → Bool
  description : String

/-- Modelled from the spec: `evaluate(record)` returns the ordered
sequence of findings, one per registered rule whose predicate fires,
in rule registration order. -/
def evaluate (rules : List AnomalyRule) (r : Pokemon) : List Anomaly :=
  rules.filterMap fun ru =>
    if ru.predicate r then
      some { rule := ru.id, severity := ru.severity,
             description := ru.description, details := "" }
    else
      none

/-- Predicate of the built-in "negative_stats" rule.  Modelled from the
spec: any of the 6 stat dimensions is negative. -/
def negativeStatsPred (r : Pokemon) : Bool :=
  decide (r.stats.hp < 0) || decide (r.stats.attack < 0) ||
  decide (r.stats.defense < 0) || decide (r.stats.special_attack < 0) ||
  decide (r.stats.special_defense < 0) || decide (r.stats.speed < 0)

/-- Predicate of the built-in "invalid_type" rule.  Modelled from the
spec: some category tag is not in the known category vocabulary. -/
def invalidTypePred (vocab : List String) (r : Pokemon) : Bool :=
  r.types.any fun t => !(vocab.contains t)

/-- Emptiness test on an optional image-reference field: absent or the
empty string. -/
def spriteEmpty : Option String → Bool
  | none => true
  | some s => s == ""

/-- Predicate of the built-in "missing_sprite" rule.  Modelled from the
spec: both image-reference fields are empty. -/
def missingSpritePred (r : Pokemon) : Bool :=
  spriteEmpty r.sprites.front_default && spriteEmpty r.sprites.front_shiny

/-- The built-in rule set in registration order.  Modelled from the spec:
"negative_stats" (high), "invalid_type" (medium), "missing_sprite" (low). -/
def builtinRules (vocab : List String) : List AnomalyRule :=
  [ { id := "negative_stats", severity := .high,
      predicate := negativeStatsPred,
      description := "Record has a negative stat dimension" },
    { id := "invalid_type", severity := .medium,
      predicate := invalidTypePred vocab,
      description := "Record has a category tag outside the vocabulary" },
    { id := "missing_sprite", severity := .low,
      predicate := missingSpritePred,
      description := "Record has both image references empty" } ]

/-- Modelled from the spec: the fixed severity-to-level table
low→info, medium→warning, high→critical. -/
def severityToLevel : Severity → AlertLevel
  | .low => .info
  | .medium => .warning
  | .high => .critical

/-- Modelled from the spec: the alert built from a finding, title and
message constructed from the finding's rule id and description. -/
def findingToAlert (t : Nat) (f : Anomaly) : Alert :=
  { timestamp := t, level := severityToLevel f.severity,
    title := f.rule, message := f.description, details := some f.details }

/-- Append to a bounded newest-first log: the new item goes in front and
anything past the capacity is evicted (oldest first). -/
def boundedAppend (cap : Nat) (log : List α) (x : α) : List α :=
  (x :: log).take cap

/-- Error taxonomy of the ingest path.  Modelled from the spec:
`stateError` is the StateError "not running" signal, `validationError`
is a malformed record recovered locally. -/
inductive IngestError where
  | stateError
  | validationError
deriving DecidableEq, Repr

/-- The combined state of the pipeline core: processor status and the
bounded StreamEvent log (owned by the stream processor), the registered
rule set, and the bounded alert history (owned by the alert system).
Modelled from the spec. -/
structure SysState where
  proc_status : StreamProcessorStatus
  event_log : List StreamEvent
  event_capacity : Nat
  rules : List AnomalyRule
  alert_history : List Alert
  alert_capacity : Nat
  error_count : Nat

/-- Modelled from the spec: a record the engine cannot evaluate is one
with a missing required identity field (empty name). -/
def recordMalformed (r : Pokemon) : Bool :=
  r.name == ""

/-- Modelled from the spec: `start()` is a no-op if already RUNNING;
otherwise flips to RUNNING and records the start time.  Counters are not
reset. -/
def start (s : SysState) (t : Nat) : SysState :=
  if s.proc_status.is_running then s
  else
    { s with proc_status :=
        { s.proc_status with is_running := true, start_time := some t } }

/-- Modelled from the spec: `stop()` is a no-op if already STOPPED;
otherwise flips to STOPPED and clears start_time, leaving the counters
and last_processed untouched. -/
def stop (s : SysState) : SysState :=
  if s.proc_status.is_running then
    { s with proc_status :=
        { s.proc_status with is_running := false, start_time := none } }
  else s

/-- The StreamEvent built by `ingest` for one processed record. -/
def mkStreamEvent (rules : List AnomalyRule) (r : Pokemon) (t : Nat) :
    StreamEvent :=
  { timestamp := t, pokemon_id := r.id, pokemon_name := r.name,
    anomalies_count := (evaluate rules r).length,
    anomalies := evaluate rules r }

/-- Forwarding a list of findings to the alert system: each finding in
order is mapped to an alert and appended to the bounded history. -/
def recordFindings (cap : Nat) (hist : List Alert) (t : Nat)
    (fs : List Anomaly) : List Alert :=
  fs.foldl (fun h f => boundedAppend cap h (findingToAlert t f)) hist

/-- The successor state after a successful `ingest`: processed_count
bumped by one, anomalies_detected and alerts_sent bumped by the finding
count, last_processed updated, the StreamEvent appended to the bounded
log and the findings forwarded to the alert system. -/
def ingestOkState (s : SysState) (r : Pokemon) (t : Nat) : SysState :=
  { s with
      proc_status :=
        { s.proc_status with
            processed_count := s.proc_status.processed_count + 1,
            anomalies_detected :=
              s.proc_status.anomalies_detected + (evaluate s.rules r).length,
            alerts_sent :=
              s.proc_status.alerts_sent + (evaluate s.rules r).length,
            last_processed := some t },
      event_log :=
        boundedAppend s.event_capacity s.event_log (mkStreamEvent s.rules r t),
      alert_history :=
        recordFindings s.alert_capacity s.alert_history t (evaluate s.rules r) }

/-- Modelled from the spec: `ingest(record)` requires RUNNING (otherwise
a StateError, no state change), rejects a malformed record with a
ValidationError counted separately, and otherwise processes the record
via `ingestOkState` and emits the StreamEvent. -/
def ingest (s : SysState) (r : Pokemon) (t : Nat) :
    SysState × Except IngestError StreamEvent :=
  if s.proc_status.is_running then
    if recordMalformed r then
      ({ s with error_count := s.error_count + 1 },
       Except.error IngestError.validationError)
    else
      (ingestOkState s r t, Except.ok (mkStreamEvent s.rules r t))
  else (s, Except.error IngestError.stateError)

/-- A whole sequence of ingest calls, threading the state and collecting
the emitted StreamEvents in call order. -/
def ingestSeq (s : SysState) : List (Pokemon × Nat) → SysState × List StreamEvent
  | [] => (s, [])
  | (r, t) :: rest =>
    let step := ingest s r t
    let next := ingestSeq step.1 rest
    match step.2 with
    | Except.ok ev => (next.1, ev :: next.2)
    | Except.error _ => (next.1, next.2)

/-- `status()`: a snapshot of the processor status. -/
def status (s : SysState) : StreamProcessorStatus :=
  s.proc_status

/-- `events(limit)`: the most recent `limit` StreamEvents, newest first. -/
def events (s : SysState) (limit : Nat) : List StreamEvent :=
  s.event_log.take limit

/-- `history(limit)`: the most recent `limit` alerts, newest first. -/
def history (s : SysState) (limit : Nat) : List Alert :=
  s.alert_history.take limit

/-- `metrics()`: the Alert Metrics derived view over the alert history. -/
def metrics (s : SysState) : AlertSystemStatus :=
  { total_alerts := s.alert_history.length,
    last_alert := s.alert_history.head?.map Alert.timestamp }

/-- `clear()`: empties the alert history.  Modelled from the spec: it does
not touch the processor's state. -/
def clearAlerts (s : SysState) : SysState :=
  { s with alert_history := [] }

/-- `test(level)`: a manual alert appended directly at the requested
level, bypassing the severity mapping. -/
def testAlert (s : SysState) (t : Nat) (lvl : AlertLevel) : SysState :=
  let a : Alert :=
    { timestamp := t, level := lvl, title := "Manual alert",
      message := "Manual alert", details := none }
  { s with alert_history := boundedAppend s.alert_capacity s.alert_history a }

/-- A whole sequence of manual-alert calls. -/
def testSeq (s : SysState) : List (Nat × AlertLevel) → SysState
  | [] => s
  | (t, lvl) :: rest => testSeq (testAlert s t lvl) rest

/-- The manual alert value appended by `testAlert`. -/
def manualAlert (t : Nat) (lvl : AlertLevel) : Alert :=
  { timestamp := t, level := lvl, title := "Manual alert",
    message := "Manual alert", details := none }

/-- All six stat dimensions non-negative. -/
def statsNonNeg (st : PokemonStats) : Bool :=
  decide (0 ≤ st.hp) && decide (0 ≤ st.attack) && decide (0 ≤ st.defense) &&
  decide (0 ≤ st.special_attack) && decide (0 ≤ st.special_defense) &&
  decide (0 ≤ st.speed)

/-- Modelled from the spec: a record is valid when its id is present and
positive, its name non-empty, all 6 stat dimensions non-negative, and at
least one category tag is present. -/
def pokemonValid (r : Pokemon) : Bool :=
  decide (0 < r.id) && !(r.name == "") && statsNonNeg r.stats && !r.types.isEmpty

/-- Modelled from the spec: a record is complete when both image
references are non-empty. -/
def pokemonComplete (r : Pokemon) : Bool :=
  !spriteEmpty r.sprites.front_default && !spriteEmpty r.sprites.front_shiny

/-- Modelled from the spec: a record is consistent when all its category
tags are members of the known vocabulary. -/
def pokemonConsistent (vocab : List String) (r : Pokemon) : Bool :=
  r.types.all fun tg => vocab.contains tg

/-- A fraction expressed on a 0-100 scale, with an empty denominator
yielding the defined value 0. -/
def fracPct (num den : Nat) : ℚ :=
  if den = 0 then 0 else (num : ℚ) / (den : ℚ) * 100

/-- Data quality summary, from the `DataQuality` declaration. -/
structure DataQuality where
  quality_score : ℚ
  total_records : Nat
  valid_records : Nat
  invalid_records : Nat
  completeness : ℚ
  accuracy : ℚ
  consistency : ℚ
deriving DecidableEq, Repr

/-- Modelled from the spec: the dashboard aggregator recomputes the data
quality view on demand from a full scan of the record store.
`completeness`, `accuracy` (no findings on a fresh re-evaluation) and
`consistency` are fractions on the 0-100 scale, and `quality_score` is
their arithmetic mean. -/
def computeDataQuality (vocab : List String) (rules : List AnomalyRule)
    (rs : List Pokemon) : DataQuality :=
  let comp := fracPct (rs.countP pokemonComplete) rs.length
  let acc := fracPct (rs.countP fun r => (evaluate rules r).isEmpty) rs.length
  let cons := fracPct (rs.countP (pokemonConsistent vocab)) rs.length
  { quality_score := (comp + acc + cons) / 3,
    total_records := rs.length,
    valid_records := rs.countP pokemonValid,
    invalid_records := rs.length - rs.countP pokemonValid,
    completeness := comp,
    accuracy := acc,
    consistency := cons }

/-! ## Frontend error normalizer

Embedded from `src/frontend/src/services/api.ts`, `handleApiError`.
The axios error value is modelled by the three levels of optional fields
the function inspects; JavaScript truthiness of a string field is
"present and non-empty". -/

/-- The `error.response.data` object: optional `message` and `error`
string fields. -/
structure ErrorResponseData where
  message : Option String
  error : Option String
deriving DecidableEq, Repr

/-- The `error.response` object with its optional `data` field. -/
structure ErrorResponse where
  data : Option ErrorResponseData
deriving DecidableEq, Repr

/-- The error value passed to `handleApiError`: optional `response` and
optional top-level `message`. -/
structure ApiError where
  response : Option ErrorResponse
  message : Option String
deriving DecidableEq, Repr

/-- JavaScript truthiness of an optional string: present and non-empty. -/
def truthy : Option String → Bool
  | none => false
  | some s => !(s == "")

/-- From `src/frontend/src/services/api.ts` lines 115-126: return
`error.response.data.message` if truthy, else `error.response.data.error`
if truthy, else `error.message` if truthy, else the constant
`'Erro desconhecido'`. -/
def handleApiError (e : ApiError) : String :=
  let d := e.response.bind ErrorResponse.data
  if truthy (d.bind ErrorResponseData.message) then
    (d.bind ErrorResponseData.message).getD ""
  else if truthy (d.bind ErrorResponseData.error) then
    (d.bind ErrorResponseData.error).getD ""
  else if truthy e.message then
    e.message.getD ""
  else
    "Erro desconhecido"

/-! ## Sample values used to instantiate hypotheses on concrete inputs -/

/-- A small category vocabulary. -/
def sampleVocab : List String := ["electric", "fire"]

/-- A healthy stat vector. -/
def goodStats : PokemonStats :=
  { hp := 35, attack := 55, defense := 40, special_attack := 50,
    special_defense := 50, speed := 90 }

/-- A stat vector with a negative dimension. -/
def badStats : PokemonStats :=
  { goodStats with hp := -1 }

/-- A well-formed record. -/
def pikachu : Pokemon :=
  { id := 25, name := "pikachu", types := ["electric"], stats := goodStats,
    sprites := { front_default := some "front.png",
                 front_shiny := some "shiny.png" } }

/-- A malformed record: the required identity field (name) is missing. -/
def nameless : Pokemon :=
  { pikachu with name := "" }

/-- A record violating exactly the negative_stats rule. -/
def negatron : Pokemon :=
  { pikachu with stats := badStats }

/-- A fresh running system state with the given capacities and rules. -/
def initState (ecap acap : Nat) (rules : List AnomalyRule) : SysState :=
  { proc_status :=
      { is_running := true, processed_count := 0, anomalies_detected := 0,
        alerts_sent := 0, last_processed := none, start_time := none },
    event_log := [], event_capacity := ecap, rules := rules,
    alert_history := [], alert_capacity := acap, error_count := 0 }

/-- A stopped system state with some retained history and counters. -/
def stoppedState : SysState :=
  { proc_status :=
      { is_running := false, processed_count := 7, anomalies_detected := 3,
        alerts_sent := 3, last_processed := some 9, start_time := none },
    event_log := [], event_capacity := 5, rules := [],
    alert_history := [], alert_capacity := 5, error_count := 0 }

/-- The finding emitted by the built-in negative_stats rule. -/
def negativeStatsFinding : Anomaly :=
  { rule := "negative_stats", severity := .high,
    description := "Record has a negative stat dimension", details := "" }

/-- A fresh running state with the built-in rules, used as a concrete
starting point. -/
def c1State : SysState := initState 10 10 (builtinRules sampleVocab)

/-- A concrete ingest sequence: a clean record, a malformed record and a
record with a negative stat. -/
def c1Inputs : List (Pokemon × Nat) := [(pikachu, 1), (nameless, 2), (negatron, 3)]

/-- A fresh running state with capacity one on both bounded logs. -/
def smallState : SysState := initState 1 1 []

/-- Two clean ingest calls, one more than `smallState`'s capacity. -/
def c4Inputs : List (Pokemon × Nat) := [(pikachu, 1), (pikachu, 2)]

/-- Two manual alerts, one more than `smallState`'s capacity. -/
def c4Tests : List (Nat × AlertLevel) := [(5, .info), (6, .warning)]

/-! ## Helper lemmas -/

/-- Taking `n` of an append absorbs an inner `take n`. -/
theorem take_append_take (A B : List α) (n : Nat) :
    (A ++ B.take n).take n = (A ++ B).take n := by
  rw [List.take_append_eq_append_take, List.take_append_eq_append_take,
      List.take_take, Nat.min_eq_left (Nat.sub_le n A.length)]

/-- `ingest` on a malformed record only bumps the error counter. -/
theorem ingest_malformed_eq (s : SysState) (r : Pokemon) (t : Nat)
    (hrun : s.proc_status.is_running = true) (hm : recordMalformed r = true) :
    ingest s r t = ({ s with error_count := s.error_count + 1 },
                    Except.error IngestError.validationError) := by
  simp [ingest, hrun, hm]

/-- `ingest` on a well-formed record while RUNNING succeeds. -/
theorem ingest_ok_eq (s : SysState) (r : Pokemon) (t : Nat)
    (hrun : s.proc_status.is_running = true) (hm : recordMalformed r = false) :
    ingest s r t = (ingestOkState s r t,
                    Except.ok (mkStreamEvent s.rules r t)) := by
  simp [ingest, hrun, hm]

/-- State component of `ingestSeq` across a malformed head. -/
theorem ingestSeq_cons_malformed_fst (s : SysState) (r : Pokemon) (t : Nat)
    (rest : List (Pokemon × Nat))
    (hrun : s.proc_status.is_running = true) (hm : recordMalformed r = true) :
    (ingestSeq s ((r, t) :: rest)).1
      = (ingestSeq { s with error_count := s.error_count + 1 } rest).1 := by
  rw [ingestSeq, ingest_malformed_eq s r t hrun hm]

/-- Event component of `ingestSeq` across a malformed head. -/
theorem ingestSeq_cons_malformed_snd (s : SysState) (r : Pokemon) (t : Nat)
    (rest : List (Pokemon × Nat))
    (hrun : s.proc_status.is_running = true) (hm : recordMalformed r = true) :
    (ingestSeq s ((r, t) :: rest)).2
      = (ingestSeq { s with error_count := s.error_count + 1 } rest).2 := by
  rw [ingestSeq, ingest_malformed_eq s r t hrun hm]

/-- State component of `ingestSeq` across a successful head. -/
theorem ingestSeq_cons_ok_fst (s : SysState) (r : Pokemon) (t : Nat)
    (rest : List (Pokemon × Nat))
    (hrun : s.proc_status.is_running = true) (hm : recordMalformed r = false) :
    (ingestSeq s ((r, t) :: rest)).1
      = (ingestSeq (ingestOkState s r t) rest).1 := by
  rw [ingestSeq, ingest_ok_eq s r t hrun hm]

/-- Event component of `ingestSeq` across a successful head. -/
theorem ingestSeq_cons_ok_snd (s : SysState) (r : Pokemon) (t : Nat)
    (rest : List (Pokemon × Nat))
    (hrun : s.proc_status.is_running = true) (hm : recordMalformed r = false) :
    (ingestSeq s ((r, t) :: rest)).2
      = mkStreamEvent s.rules r t :: (ingestSeq (ingestOkState s r t) rest).2 := by
  rw [ingestSeq, ingest_ok_eq s r t hrun hm]

/-- A truthy optional string read with an empty default is non-empty. -/
theorem truthy_getD {o : Option String} (h : truthy o = true) :
    o.getD "" ≠ "" := by
  cases o with
  | none => simp [truthy] at h
  | some s =>
    simp [truthy] at h
    simpa using h

/-- Unfolding `evaluate` on an empty rule set. -/
theorem evaluate_nil (r : Pokemon) : evaluate [] r = [] := rfl

/-- Unfolding `evaluate` on a rule-set cons cell. -/
theorem evaluate_cons (ru : AnomalyRule) (rest : List AnomalyRule) (r : Pokemon) :
    evaluate (ru :: rest) r
      = (if ru.predicate r then
          [{ rule := ru.id, severity := ru.severity,
             description := ru.description, details := "" }]
         else []) ++ evaluate rest r := by
  by_cases h : ru.predicate r
  · simp [evaluate, List.filterMap_cons, h]
  · simp [evaluate, List.filterMap_cons, h]

/-- The findings of `evaluate` carry the ids of the firing rules in
registration order. -/
theorem evaluate_rules_order (rules : List AnomalyRule) (r : Pokemon) :
    (evaluate rules r).map Anomaly.rule
      = (rules.filter fun ru => ru.predicate r).map AnomalyRule.id := by
  induction rules with
  | nil => simp [evaluate_nil]
  | cons ru rest ih =>
    rw [evaluate_cons, List.filter_cons]
    by_cases h : ru.predicate r
    · simp [h, ih]
    · simp [h, ih]

/-- Across any ingest sequence from a RUNNING state, the processor stays
RUNNING, processed_count advances by the count of well-formed records and
anomalies_detected advances by the sum of the emitted finding counts. -/
theorem ingestSeq_counters (inputs : List (Pokemon × Nat)) :
    ∀ s : SysState, s.proc_status.is_running = true →
    (ingestSeq s inputs).1.proc_status.is_running = true
    ∧ (ingestSeq s inputs).1.proc_status.processed_count
        = s.proc_status.processed_count
          + inputs.countP (fun p => !recordMalformed p.1)
    ∧ (ingestSeq s inputs).1.proc_status.anomalies_detected
        = s.proc_status.anomalies_detected
          + ((ingestSeq s inputs).2.map StreamEvent.anomalies_count).sum := by
  induction inputs with
  | nil =>
    intro s hrun
    refine ⟨hrun, ?_, ?_⟩ <;> simp [ingestSeq]
  | cons p rest ih =>
    intro s hrun
    obtain ⟨r, t⟩ := p
    cases hm : recordMalformed r with
    | true =>
      rw [ingestSeq_cons_malformed_fst s r t rest hrun hm,
          ingestSeq_cons_malformed_snd s r t rest hrun hm]
      have ih' := ih { s with error_count := s.error_count + 1 } hrun
      refine ⟨ih'.1, ?_, ?_⟩
      · rw [ih'.2.1]
        simp [List.countP_cons, hm]
      · exact ih'.2.2
    | false =>
      rw [ingestSeq_cons_ok_fst s r t rest hrun hm,
          ingestSeq_cons_ok_snd s r t rest hrun hm]
      have hrun' : (ingestOkState s r t).proc_status.is_running = true := hrun
      have ih' := ih (ingestOkState s r t) hrun'
      refine ⟨ih'.1, ?_, ?_⟩
      · rw [ih'.2.1]
        show s.proc_status.processed_count + 1 + _ = _
        simp [List.countP_cons, hm]
        omega
      · rw [ih'.2.2]
        show s.proc_status.anomalies_detected + (evaluate s.rules r).length + _ = _
        simp [mkStreamEvent, List.sum_cons]
        omega

/-- Across any ingest sequence from a RUNNING state whose event log is
within capacity, the log ends up holding the most recently emitted
events, newest first, truncated at the capacity. -/
theorem ingestSeq_event_log (inputs : List (Pokemon × Nat)) :
    ∀ s : SysState, s.proc_status.is_running = true →
    s.event_log.length ≤ s.event_capacity →
    (ingestSeq s inputs).1.event_capacity = s.event_capacity
    ∧ (ingestSeq s inputs).1.event_log
        = ((ingestSeq s inputs).2.reverse ++ s.event_log).take s.event_capacity := by
  induction inputs with
  | nil =>
    intro s hrun hlen
    refine ⟨rfl, ?_⟩
    simp [ingestSeq]
    exact hlen
  | cons p rest ih =>
    intro s hrun hlen
    obtain ⟨r, t⟩ := p
    cases hm : recordMalformed r with
    | true =>
      rw [ingestSeq_cons_malformed_fst s r t rest hrun hm,
          ingestSeq_cons_malformed_snd s r t rest hrun hm]
      exact ih { s with error_count := s.error_count + 1 } hrun hlen
    | false =>
      rw [ingestSeq_cons_ok_fst s r t rest hrun hm,
          ingestSeq_cons_ok_snd s r t rest hrun hm]
      have hrun' : (ingestOkState s r t).proc_status.is_running = true := hrun
      have hlen' : (ingestOkState s r t).event_log.length
          ≤ (ingestOkState s r t).event_capacity := by
        show ((mkStreamEvent s.rules r t :: s.event_log).take
                s.event_capacity).length ≤ s.event_capacity
        exact List.length_take_le _ _
      have ih' := ih (ingestOkState s r t) hrun' hlen'
      refine ⟨ih'.1, ?_⟩
      rw [ih'.2]
      show ((ingestSeq (ingestOkState s r t) rest).2.reverse
              ++ (mkStreamEvent s.rules r t :: s.event_log).take s.event_capacity).take
            s.event_capacity
          = ((mkStreamEvent s.rules r t
                :: (ingestSeq (ingestOkState s r t) rest).2).reverse
              ++ s.event_log).take s.event_capacity
      rw [take_append_take]
      simp [List.reverse_cons, List.append_assoc]

/-- Across any sequence of manual-alert calls from a state whose alert
history is within capacity, the history ends up holding the most recent
manual alerts, newest first, truncated at the capacity. -/
theorem testSeq_history_eq (ts : List (Nat × AlertLevel)) :
    ∀ s : SysState, s.alert_history.length ≤ s.alert_capacity →
    (testSeq s ts).alert_capacity = s.alert_capacity
    ∧ (testSeq s ts).alert_history
        = ((ts.map fun p => manualAlert p.1 p.2).reverse
            ++ s.alert_history).take s.alert_capacity := by
  induction ts with
  | nil =>
    intro s hlen
    refine ⟨rfl, ?_⟩
    simp [testSeq]
    exact hlen
  | cons p rest ih =>
    intro s hlen
    obtain ⟨t, lvl⟩ := p
    have step : testSeq s ((t, lvl) :: rest) = testSeq (testAlert s t lvl) rest := rfl
    rw [step]
    have hlen' : (testAlert s t lvl).alert_history.length
        ≤ (testAlert s t lvl).alert_capacity := by
      show ((manualAlert t lvl :: s.alert_history).take
              s.alert_capacity).length ≤ s.alert_capacity
      exact List.length_take_le _ _
    have ih' := ih (testAlert s t lvl) hlen'
    refine ⟨ih'.1, ?_⟩
    rw [ih'.2]
    show ((rest.map fun p => manualAlert p.1 p.2).reverse
            ++ (manualAlert t lvl :: s.alert_history).take s.alert_capacity).take
          s.alert_capacity
        = ((((t, lvl) :: rest).map fun p => manualAlert p.1 p.2).reverse
            ++ s.alert_history).take s.alert_capacity
    rw [take_append_take]
    simp [List.map_cons, List.reverse_cons, List.append_assoc]

/-! ## Claim theorems -/

/-- C3: the anomaly rule engine is deterministic — for a fixed rule set
and record, two calls of `evaluate` yield identical finding sequences in
content and order, the order being rule registration order. -/
theorem evaluate_deterministic (rules : List AnomalyRule) (r : Pokemon) :
    evaluate rules r = evaluate rules r
    ∧ (evaluate rules r).map Anomaly.rule
        = (rules.filter fun ru => ru.predicate r).map AnomalyRule.id :=
  ⟨rfl, evaluate_rules_order rules r⟩

/-- C6: `clear()` empties the alert history, resets the derived metrics
to `total_alerts = 0` and `last_alert = null`, and leaves the processor
status — in particular its lifetime `alerts_sent` counter — unchanged. -/
theorem clear_alerts_frame (s : SysState) :
    (clearAlerts s).alert_history = []
    ∧ metrics (clearAlerts s) = { total_alerts := 0, last_alert := none }
    ∧ (clearAlerts s).proc_status = s.proc_status
    ∧ (clearAlerts s).proc_status.alerts_sent = s.proc_status.alerts_sent :=
  ⟨rfl, rfl, rfl, rfl⟩

/-- C7: `ingest` while STOPPED fails with the StateError signal, leaving
the whole state (processor status and StreamEvent log) unchanged, while
`stop` while STOPPED is a no-op, not an error. -/
theorem ingest_stopped_rejected (s : SysState) (r : Pokemon) (t : Nat)
    (hstop : s.proc_status.is_running = false) :
    (ingest s r t).1 = s
    ∧ (ingest s r t).2 = Except.error IngestError.stateError
    ∧ stop s = s := by
  refine ⟨?_, ?_, ?_⟩ <;> simp [ingest, stop, hstop]

/-- Witness for C7 at a concrete stopped state. -/
theorem ingest_stopped_rejected_witness :
    stoppedState.proc_status.is_running = false
    ∧ ((ingest stoppedState pikachu 1).1 = stoppedState
        ∧ (ingest stoppedState pikachu 1).2 = Except.error IngestError.stateError
        ∧ stop stoppedState = stoppedState) :=
  ⟨rfl, ingest_stopped_rejected stoppedState pikachu 1 rfl⟩

/-- C8: `stop` is idempotent on the processor status: a second `stop`
changes nothing, start_time is already null after the first call, and the
counters and last_processed are not cleared. -/
theorem stop_idempotent (s : SysState)
    (hinv : s.proc_status.is_running = false → s.proc_status.start_time = none) :
    stop (stop s) = stop s
    ∧ (stop s).proc_status.start_time = none
    ∧ (stop s).proc_status.is_running = false
    ∧ (stop s).proc_status.processed_count = s.proc_status.processed_count
    ∧ (stop s).proc_status.anomalies_detected = s.proc_status.anomalies_detected
    ∧ (stop s).proc_status.alerts_sent = s.proc_status.alerts_sent
    ∧ (stop s).proc_status.last_processed = s.proc_status.last_processed := by
  by_cases h : s.proc_status.is_running
  · simp [stop, h]
  · have h' : s.proc_status.is_running = false := by simpa using h
    simp [stop, h', hinv h']

/-- Witness for C8 at a concrete running state. -/
theorem stop_idempotent_witness :
    ((initState 5 5 []).proc_status.is_running = false →
      (initState 5 5 []).proc_status.start_time = none)
    ∧ (stop (stop (initState 5 5 [])) = stop (initState 5 5 [])
        ∧ (stop (initState 5 5 [])).proc_status.start_time = none
        ∧ (stop (initState 5 5 [])).proc_status.is_running = false
        ∧ (stop (initState 5 5 [])).proc_status.processed_count
            = (initState 5 5 []).proc_status.processed_count
        ∧ (stop (initState 5 5 [])).proc_status.anomalies_detected
            = (initState 5 5 []).proc_status.anomalies_detected
        ∧ (stop (initState 5 5 [])).proc_status.alerts_sent
            = (initState 5 5 []).proc_status.alerts_sent
        ∧ (stop (initState 5 5 [])).proc_status.last_processed
            = (initState 5 5 []).proc_status.last_processed) :=
  ⟨by intro h; simp [initState] at h,
   stop_idempotent (initState 5 5 []) (by intro h; simp [initState] at h)⟩

/-- C9: restarting (stop then start) leaves processed_count,
anomalies_detected and alerts_sent unchanged; only start_time (and, via
subsequent ingests, last_processed) reflects the new run. -/
theorem restart_preserves_counters (s : SysState) (t : Nat) :
    (start (stop s) t).proc_status.is_running = true
    ∧ (start (stop s) t).proc_status.start_time = some t
    ∧ (start (stop s) t).proc_status.processed_count
        = s.proc_status.processed_count
    ∧ (start (stop s) t).proc_status.anomalies_detected
        = s.proc_status.anomalies_detected
    ∧ (start (stop s) t).proc_status.alerts_sent
        = s.proc_status.alerts_sent
    ∧ (start (stop s) t).proc_status.last_processed
        = s.proc_status.last_processed := by
  by_cases h : s.proc_status.is_running
  · simp [start, stop, h]
  · have h' : s.proc_status.is_running = false := by simpa using h
    simp [start, stop, h']

/-- C10: `handleApiError` is total, always returns a non-empty string,
and follows the priority order response.data.message, then
response.data.error, then error.message, then the constant
'Erro desconhecido'. -/
theorem handleApiError_total_priority (e : ApiError) :
    handleApiError e ≠ ""
    ∧ (truthy ((e.response.bind ErrorResponse.data).bind ErrorResponseData.message) = true →
        handleApiError e
          = ((e.response.bind ErrorResponse.data).bind ErrorResponseData.message).getD "")
    ∧ (truthy ((e.response.bind ErrorResponse.data).bind ErrorResponseData.message) = false →
        truthy ((e.response.bind ErrorResponse.data).bind ErrorResponseData.error) = true →
        handleApiError e
          = ((e.response.bind ErrorResponse.data).bind ErrorResponseData.error).getD "")
    ∧ (truthy ((e.response.bind ErrorResponse.data).bind ErrorResponseData.message) = false →
        truthy ((e.response.bind ErrorResponse.data).bind ErrorResponseData.error) = false →
        truthy e.message = true →
        handleApiError e = e.message.getD "")
    ∧ (truthy ((e.response.bind ErrorResponse.data).bind ErrorResponseData.message) = false →
        truthy ((e.response.bind ErrorResponse.data).bind ErrorResponseData.error) = false →
        truthy e.message = false →
        handleApiError e = "Erro desconhecido") := by
  refine ⟨?_, ?_, ?_, ?_, ?_⟩
  · cases h1 : truthy ((e.response.bind ErrorResponse.data).bind ErrorResponseData.message)
    · cases h2 : truthy ((e.response.bind ErrorResponse.data).bind ErrorResponseData.error)
      · cases h3 : truthy e.message
        · simp [handleApiError, h1, h2, h3]
        · simp [handleApiError, h1, h2, h3]
          exact truthy_getD h3
      · simp [handleApiError, h1, h2]
        exact truthy_getD h2
    · simp [handleApiError, h1]
      exact truthy_getD h1
  · intro h1
    simp [handleApiError, h1]
  · intro h1 h2
    simp [handleApiError, h1, h2]
  · intro h1 h2 h3
    simp [handleApiError, h1, h2, h3]
  · intro h1 h2 h3
    simp [handleApiError, h1, h2, h3]

/-- Witness for C10 at a concrete error value with no usable fields. -/
theorem handleApiError_total_priority_witness :
    truthy ((({ response := some { data := some { message := some "", error := none } },
                message := none } : ApiError).response.bind
              ErrorResponse.data).bind ErrorResponseData.message) = false
    ∧ handleApiError
        { response := some { data := some { message := some "", error := none } },
          message := none } = "Erro desconhecido" :=
  ⟨rfl,
   (handleApiError_total_priority
      { response := some { data := some { message := some "", error := none } },
        message := none }).2.2.2.2 rfl rfl rfl⟩

/-- Modelled from the spec: `fracPct` is never negative. -/
theorem fracPct_nonneg (num den : Nat) : 0 ≤ fracPct num den := by
  unfold fracPct
  split
  · exact le_refl 0
  · positivity

/-- Modelled from the spec: `fracPct` is at most 100 when the numerator
counts a subset of the denominator. -/
theorem fracPct_le_100 (num den : Nat) (h : num ≤ den) :
    fracPct num den ≤ 100 := by
  unfold fracPct
  split
  · norm_num
  · rename_i hden
    have hd : (0 : ℚ) < (den : ℚ) := by
      exact_mod_cast Nat.pos_of_ne_zero hden
    have hfrac : (num : ℚ) / (den : ℚ) ≤ 1 := by
      rw [div_le_one hd]
      exact_mod_cast h
    nlinarith

/-- C5: the dashboard quality score is the arithmetic mean of the
completeness, accuracy and consistency sub-scores on the 0-100 scale, it
always lies within [0,100], and an empty record store yields the defined
value 0. -/
theorem quality_score_bounds (vocab : List String) (rules : List AnomalyRule)
    (rs : List Pokemon) :
    (computeDataQuality vocab rules rs).quality_score
      = ((computeDataQuality vocab rules rs).completeness
          + (computeDataQuality vocab rules rs).accuracy
          + (computeDataQuality vocab rules rs).consistency) / 3
    ∧ 0 ≤ (computeDataQuality vocab rules rs).quality_score
    ∧ (computeDataQuality vocab rules rs).quality_score ≤ 100
    ∧ (rs = [] → (computeDataQuality vocab rules rs).quality_score = 0) := by
  refine ⟨rfl, ?_, ?_, ?_⟩
  · have h1 := fracPct_nonneg (rs.countP pokemonComplete) rs.length
    have h2 := fracPct_nonneg (rs.countP fun r => (evaluate rules r).isEmpty) rs.length
    have h3 := fracPct_nonneg (rs.countP (pokemonConsistent vocab)) rs.length
    simp only [computeDataQuality]
    positivity
  · have h1 := fracPct_le_100 (rs.countP pokemonComplete) rs.length
      (List.countP_le_length _)
    have h2 := fracPct_le_100 (rs.countP fun r => (evaluate rules r).isEmpty)
      rs.length (List.countP_le_length _)
    have h3 := fracPct_le_100 (rs.countP (pokemonConsistent vocab)) rs.length
      (List.countP_le_length _)
    simp only [computeDataQuality]
    linarith
  · intro hrs
    subst hrs
    simp [computeDataQuality, fracPct]

/-- Witness for C5 at the empty record store. -/
theorem quality_score_bounds_witness :
    (computeDataQuality sampleVocab (builtinRules sampleVocab) []).quality_score = 0 :=
  (quality_score_bounds sampleVocab (builtinRules sampleVocab) []).2.2.2 rfl

/-- C1: for every sequence of ingest calls from a RUNNING state with
fresh counters, processed_count ends exactly at the number of non-error
calls and anomalies_detected ends exactly at the sum of the
anomalies_count fields over all emitted StreamEvents. -/
theorem stream_counters_exact (s : SysState) (inputs : List (Pokemon × Nat))
    (hrun : s.proc_status.is_running = true)
    (hp0 : s.proc_status.processed_count = 0)
    (ha0 : s.proc_status.anomalies_detected = 0) :
    (ingestSeq s inputs).1.proc_status.processed_count
        = inputs.countP (fun p => !recordMalformed p.1)
    ∧ (ingestSeq s inputs).1.proc_status.anomalies_detected
        = ((ingestSeq s inputs).2.map StreamEvent.anomalies_count).sum := by
  have h := ingestSeq_counters inputs s hrun
  constructor
  · rw [h.2.1, hp0]
    omega
  · rw [h.2.2, ha0]
    omega

/-- Witness for C1: one clean record, one malformed record, one record
with an anomaly. -/
theorem stream_counters_exact_witness :
    c1State.proc_status.is_running = true
    ∧ c1State.proc_status.processed_count = 0
    ∧ c1State.proc_status.anomalies_detected = 0
    ∧ ((ingestSeq c1State c1Inputs).1.proc_status.processed_count
          = c1Inputs.countP (fun p => !recordMalformed p.1)
        ∧ (ingestSeq c1State c1Inputs).1.proc_status.anomalies_detected
          = ((ingestSeq c1State c1Inputs).2.map StreamEvent.anomalies_count).sum) :=
  ⟨rfl, rfl, rfl, stream_counters_exact c1State c1Inputs rfl rfl rfl⟩

/-- C2: the severity-to-level table is low→info, medium→warning,
high→critical, and a record that triggers exactly the negative_stats rule
yields exactly one finding, whose alert — the only one appended — is at
level critical, with alerts_sent bumped by exactly one. -/
theorem negative_stats_critical (s : SysState) (r : Pokemon) (t : Nat)
    (vocab : List String)
    (hrules : s.rules = builtinRules vocab)
    (hrun : s.proc_status.is_running = true)
    (hm : recordMalformed r = false)
    (hneg : negativeStatsPred r = true)
    (hinv : invalidTypePred vocab r = false)
    (hspr : missingSpritePred r = false) :
    severityToLevel Severity.low = AlertLevel.info
    ∧ severityToLevel Severity.medium = AlertLevel.warning
    ∧ severityToLevel Severity.high = AlertLevel.critical
    ∧ evaluate s.rules r = [negativeStatsFinding]
    ∧ (ingest s r t).1.alert_history
        = boundedAppend s.alert_capacity s.alert_history
            (findingToAlert t negativeStatsFinding)
    ∧ (findingToAlert t negativeStatsFinding).level = AlertLevel.critical
    ∧ (ingest s r t).1.proc_status.alerts_sent
        = s.proc_status.alerts_sent + 1 := by
  have heval : evaluate s.rules r = [negativeStatsFinding] := by
    rw [hrules, builtinRules, evaluate_cons, evaluate_cons, evaluate_cons,
        evaluate_nil]
    simp [hneg, hinv, hspr, negativeStatsFinding]
  refine ⟨rfl, rfl, rfl, heval, ?_, rfl, ?_⟩
  · rw [ingest_ok_eq s r t hrun hm]
    show recordFindings s.alert_capacity s.alert_history t (evaluate s.rules r) = _
    rw [heval]
    rfl
  · rw [ingest_ok_eq s r t hrun hm]
    show s.proc_status.alerts_sent + (evaluate s.rules r).length = _
    rw [heval]
    simp

/-- Witness for C2 at a record with one negative stat dimension. -/
theorem negative_stats_critical_witness :
    c1State.rules = builtinRules sampleVocab
    ∧ c1State.proc_status.is_running = true
    ∧ recordMalformed negatron = false
    ∧ negativeStatsPred negatron = true
    ∧ invalidTypePred sampleVocab negatron = false
    ∧ missingSpritePred negatron = false
    ∧ (severityToLevel Severity.low = AlertLevel.info
        ∧ severityToLevel Severity.medium = AlertLevel.warning
        ∧ severityToLevel Severity.high = AlertLevel.critical
        ∧ evaluate c1State.rules negatron = [negativeStatsFinding]
        ∧ (ingest c1State negatron 3).1.alert_history
            = boundedAppend c1State.alert_capacity c1State.alert_history
                (findingToAlert 3 negativeStatsFinding)
        ∧ (findingToAlert 3 negativeStatsFinding).level = AlertLevel.critical
        ∧ (ingest c1State negatron 3).1.proc_status.alerts_sent
            = c1State.proc_status.alerts_sent + 1) :=
  ⟨rfl, rfl, by decide, by decide, by decide, by decide,
   negative_stats_critical c1State negatron 3 sampleVocab rfl rfl
     (by decide) (by decide) (by decide) (by decide)⟩

/-- C4: once more items have been appended than the configured capacity,
`events(limit)` and `history(limit)` never exceed the capacity and return
the most recently appended items, newest first, the oldest having been
evicted. -/
theorem bounded_logs_newest_first (s : SysState)
    (inputs : List (Pokemon × Nat)) (ts : List (Nat × AlertLevel))
    (limit : Nat)
    (hrun : s.proc_status.is_running = true)
    (hev : s.event_log = [])
    (hal : s.alert_history = [])
    (_hovE : s.event_capacity < (ingestSeq s inputs).2.length)
    (_hovA : s.alert_capacity < ts.length) :
    (events (ingestSeq s inputs).1 limit).length ≤ s.event_capacity
    ∧ events (ingestSeq s inputs).1 limit
        = (ingestSeq s inputs).2.reverse.take (min limit s.event_capacity)
    ∧ (history (testSeq s ts) limit).length ≤ s.alert_capacity
    ∧ history (testSeq s ts) limit
        = ((ts.map fun p => manualAlert p.1 p.2).reverse).take
            (min limit s.alert_capacity) := by
  have hE := ingestSeq_event_log inputs s hrun (by simp [hev])
  have hA := testSeq_history_eq ts s (by simp [hal])
  have hEeq : events (ingestSeq s inputs).1 limit
      = (ingestSeq s inputs).2.reverse.take (min limit s.event_capacity) := by
    show (ingestSeq s inputs).1.event_log.take limit = _
    rw [hE.2, hev]
    simp [List.take_take]
  have hAeq : history (testSeq s ts) limit
      = ((ts.map fun p => manualAlert p.1 p.2).reverse).take
          (min limit s.alert_capacity) := by
    show (testSeq s ts).alert_history.take limit = _
    rw [hA.2, hal]
    simp [List.take_take]
  refine ⟨?_, hEeq, ?_, hAeq⟩
  · rw [hEeq]
    simp [List.length_take]
  · rw [hAeq]
    simp [List.length_take]

/-- Witness for C4: capacity one on both logs, two ingested events and
two manual alerts. -/
theorem bounded_logs_newest_first_witness :
    smallState.proc_status.is_running = true
    ∧ smallState.event_log = []
    ∧ smallState.alert_history = []
    ∧ smallState.event_capacity < (ingestSeq smallState c4Inputs).2.length
    ∧ smallState.alert_capacity < c4Tests.length
    ∧ ((events (ingestSeq smallState c4Inputs).1 3).length ≤ smallState.event_capacity
        ∧ events (ingestSeq smallState c4Inputs).1 3
            = (ingestSeq smallState c4Inputs).2.reverse.take
                (min 3 smallState.event_capacity)
        ∧ (history (testSeq smallState c4Tests) 3).length ≤ smallState.alert_capacity
        ∧ history (testSeq smallState c4Tests) 3
            = ((c4Tests.map fun p => manualAlert p.1 p.2).reverse).take
                (min 3 smallState.alert_capacity)) :=
  ⟨rfl, rfl, rfl, by decide, by decide,
   bounded_logs_newest_first smallState c4Inputs c4Tests 3 rfl rfl rfl
     (by decide) (by decide)⟩

end PokemonPipeline
